import Mathlib

/-!
Verification of the natural-language specification of the
`@daangamesdg/youtube-notifications` WebSub (PubSubHubbub) subscriber
against a shallow embedding of its behaviour.

The repository ships only its TypeScript declaration surface
(`src/typings/index.d.ts`); the implementation bodies are not part of the
sources available here.  Every behavioural definition below is therefore
modelled from the specification (doc comments say so explicitly), while
the data shapes (`Notification`, `SubscriptionUpdate`, the notifier fields
`hubCallback`, `hubUrl`, `secret`, `middleware`, `port`, `path`, `server`,
`_received`, and the operations `setup`, `listener`, `subscribe`,
`unsubscribe`) follow the declaration file.
-/

namespace YTNotif

/-- Modelled from the spec: a parsed video-update record (`Notification` in
`index.d.ts`): video id/title/link, channel id/name/link, published and
updated timestamps (timestamps modelled as natural numbers). -/
structure Notification where
  videoId : String
  videoTitle : String
  videoLink : String
  channelId : String
  channelName : String
  channelLink : String
  published : Nat
  updated : Nat
deriving DecidableEq, Repr

/-- The two subscription-update kinds of `SubscriptionUpdate.type`. -/
inductive SubType where
  | subscribe
  | unsubscribe
deriving DecidableEq, Repr

/-- `SubscriptionUpdate` from `index.d.ts`: update kind, channel id and the
lease duration in seconds. -/
structure SubscriptionUpdate where
  type : SubType
  channel : String
  leaseSeconds : Nat
deriving DecidableEq, Repr

/-- Modelled from the spec: the events the Notifier emits (`notified`,
`subscribe`/`unsubscribe` as subscription updates) plus the error event used
for transport failures. -/
inductive Event where
  | notified (n : Notification)
  | subscription (u : SubscriptionUpdate)
  | error (msg : String)
deriving DecidableEq, Repr

/-- An HTTP response as the callback handler produces it: a status code and
a body string. -/
structure HttpResponse where
  status : Nat
  body : String
deriving DecidableEq, Repr

/-- Modelled from the spec: the Deduplication Ledger (the `_received` array
of the notifier, missing from src): a capacity-bounded, insertion-ordered
record of recently accepted ids, oldest first. -/
structure Ledger where
  capacity : Nat
  entries : List String
deriving DecidableEq, Repr

/-- Modelled from the spec: ledger membership check used to suppress
duplicate deliveries. -/
def Ledger.contains (l : Ledger) (id : String) : Bool :=
  l.entries.contains id

/-- Modelled from the spec: `record(id)` appends the id and evicts the
oldest entries once the capacity is exceeded (FIFO eviction). -/
def Ledger.record (l : Ledger) (id : String) : Ledger :=
  { l with entries :=
      if l.capacity < (l.entries ++ [id]).length then
        (l.entries ++ [id]).drop ((l.entries ++ [id]).length - l.capacity)
      else l.entries ++ [id] }

/-- Recording a list of ids in order, left to right. -/
def Ledger.recordAll (l : Ledger) (ids : List String) : Ledger :=
  ids.foldl Ledger.record l

/-- An empty ledger with the given capacity. -/
def Ledger.empty (cap : Nat) : Ledger :=
  { capacity := cap, entries := [] }

/-- The state of a subscription record, following the spec lifecycle
pending -> active (removed records are dropped from the table). -/
inductive SubState where
  | pending
  | active
deriving DecidableEq, Repr

/-- Modelled from the spec: the mutable state of one Notifier instance
(the class body is missing from src): configuration fields from
`index.d.ts`, the optional owned server, the subscription table and the
deduplication ledger. -/
structure NotifierState where
  hubCallback : String
  hubUrl : String
  secret : Option String
  middleware : Bool
  port : Nat
  path : String
  server : Option (Nat × String)
  subs : List (String × SubState)
  received : Ledger
deriving DecidableEq, Repr

/-- `NotifierOptions` from `index.d.ts`: `hubCallback` is required, the
rest optional. -/
structure NotifierOptions where
  hubCallback : String
  secret : Option String := none
  middleware : Option Bool := none
  port : Option Nat := none
  path : Option String := none
  hubUrl : Option String := none

/-- Default port for the standalone listener. -/
def defaultPort : Nat := 3000

/-- Default callback path. -/
def defaultPath : String := "/"

/-- Default public hub endpoint. -/
def defaultHubUrl : String := "https://pubsubhubbub.appspot.com/"

/-- Default capacity of the deduplication ledger. -/
def defaultDedupCapacity : Nat := 50

/-- Modelled from the spec: the constructor (missing from src) stores the
configuration, applies the documented defaults, and initialises the server
to null, the subscription table to empty and the ledger to empty. -/
def Notifier.create (o : NotifierOptions) : NotifierState :=
  { hubCallback := o.hubCallback
    hubUrl := o.hubUrl.getD defaultHubUrl
    secret := o.secret
    middleware := o.middleware.getD false
    port := o.port.getD defaultPort
    path := o.path.getD defaultPath
    server := none
    subs := []
    received := Ledger.empty defaultDedupCapacity }

/-- Modelled from the spec: `setup()` (missing from src) binds a standalone
listener on the configured port and path; it errors when the notifier is in
middleware mode. -/
def Notifier.setup (st : NotifierState) : Except String NotifierState :=
  if st.middleware then Except.error ("setup called in middleware mode")
  else Except.ok { st with server := some (st.port, st.path) }

/-- Modelled from the spec: `listener()` (missing from src) returns the
composable request handler; it errors when not in middleware mode.  The
returned state is the notifier state as the handler sees it: `listener`
mutates nothing. -/
def Notifier.listener (st : NotifierState) : Except String NotifierState :=
  if st.middleware then Except.ok st
  else Except.error ("listener called outside middleware mode")

/-- Look up the subscription state recorded for a channel. -/
def lookupSub (subs : List (String × SubState)) (ch : String) : Option SubState :=
  match subs.find? (fun p => p.1 == ch) with
  | some p => some p.2
  | none => none

/-- Set (insert or update) the subscription state of a channel. -/
def setSub (subs : List (String × SubState)) (ch : String) (s : SubState) :
    List (String × SubState) :=
  match subs with
  | [] => [(ch, s)]
  | p :: rest => if p.1 == ch then (ch, s) :: rest else p :: setSub rest ch s

/-- Remove the subscription record of a channel. -/
def removeSub (subs : List (String × SubState)) (ch : String) :
    List (String × SubState) :=
  subs.filter (fun p => ¬ p.1 == ch)

/-- The fixed feed-URL base the topic is built from. -/
def topicBase : String := "https://www.youtube.com/xml/feeds/videos.xml?channel_id="

/-- Modelled from the spec: the hub topic URL derived from a channel id. -/
def topicOfChannel (ch : String) : String := topicBase ++ ch

/-- Modelled from the spec: the callback handler derives the channel id
from the topic URL; a topic not of the feed-URL shape is unknown. -/
def channelOfTopic (t : String) : Option String :=
  if t.data.take topicBase.data.length = topicBase.data then
    some (String.mk (t.data.drop topicBase.data.length))
  else none

/-- The numeric value of a decimal digit character, none otherwise. -/
def charDigit (c : Char) : Option Nat :=
  if c.isDigit then some (c.toNat - ('0').toNat) else none

/-- Parse a character list as a decimal natural number. -/
def parseNatAux : List Char → Nat → Option Nat
  | [], acc => some acc
  | c :: cs, acc =>
    match charDigit c with
    | none => none
    | some d => parseNatAux cs (acc * 10 + d)

/-- Modelled from the spec: the lease duration parsed from the
hub.lease_seconds query parameter, 0 if absent or non-numeric. -/
def parseLease (lease : Option String) : Nat :=
  match lease with
  | none => 0
  | some s => (parseNatAux s.data 0).getD 0

/-- Modelled from the spec: the GET (hub verification) half of the callback
handler, missing from src.  Input: the notifier state and the hub.mode,
hub.topic, hub.challenge and hub.lease_seconds query parameters.  Output:
the new state, the HTTP response, and the events emitted. -/
def handleGet (st : NotifierState)
    (mode topic challenge lease : Option String) :
    NotifierState × HttpResponse × List Event :=
  match mode, topic, challenge with
  | some m, some t, some c =>
    match channelOfTopic t with
    | none => (st, { status := 404, body := "" }, [])
    | some ch =>
      if m == "subscribe" then
        if lookupSub st.subs ch == some SubState.pending then
          ({ st with subs := setSub st.subs ch SubState.active },
           { status := 200, body := c },
           [Event.subscription
             { type := SubType.subscribe, channel := ch, leaseSeconds := parseLease lease }])
        else (st, { status := 404, body := "" }, [])
      else if m == "unsubscribe" then
        if lookupSub st.subs ch == some SubState.active then
          ({ st with subs := removeSub st.subs ch },
           { status := 200, body := c },
           [Event.subscription
             { type := SubType.unsubscribe, channel := ch, leaseSeconds := parseLease lease }])
        else (st, { status := 404, body := "" }, [])
      else (st, { status := 404, body := "" }, [])
  | _, _, _ => (st, { status := 400, body := "" }, [])

/-- Modelled from the spec: one entry of an Atom feed after the XML layer
has structured it; the id may be missing, in which case the entry is
unparseable-for-that-entry. -/
structure RawEntry where
  id : Option String
  title : String
  link : String
  chanId : String
  chanName : String
  chanLink : String
  published : Nat
  updated : Nat
deriving DecidableEq, Repr

/-- Modelled from the spec: turning one raw entry into a notification
record; entries that lack an id do not parse. -/
def entryToNote (r : RawEntry) : Option Notification :=
  match r.id with
  | none => none
  | some i =>
    some { videoId := i, videoTitle := r.title, videoLink := r.link,
           channelId := r.chanId, channelName := r.chanName, channelLink := r.chanLink,
           published := r.published, updated := r.updated }

/-- The single unparseable-feed error message. -/
def unparseableMsg : String := "unparseable feed"

/-- Modelled from the spec: the Feed Parser policy, missing from src:
lenient per entry (skip entries that do not parse, keep document order),
strict overall only when no entry parses. -/
def parseFeed (raws : List RawEntry) : Except String (List Notification) :=
  match raws.filterMap entryToNote with
  | [] => Except.error unparseableMsg
  | notes => Except.ok notes

/-- Split a character list at the first occurrence of the equals sign. -/
def splitEq : List Char → Option (List Char × List Char)
  | [] => none
  | c :: cs =>
    if c = ('=') then some ([], cs)
    else
      match splitEq cs with
      | none => none
      | some (a, b) => some (c :: a, b)

/-- Split a signature header value of the form algorithm=hexDigest at the
first equals sign. -/
def splitSig (h : String) : Option (String × String) :=
  match splitEq h.data with
  | none => none
  | some (a, b) => some (String.mk a, String.mk b)

/-- Modelled from the spec: the Signature Verifier, missing from src,
parameterised by the HMAC primitive (an external collaborator): given an
algorithm name, a secret and the raw body it returns the hex digest, or
none for an unsupported algorithm.  Verification passes when no secret is
configured; with a secret it requires a well-formed header whose digest
equals the recomputed HMAC, and fails closed otherwise. -/
def sigOk (hmacFn : String → String → String → Option String)
    (secret : Option String) (sigHeader : Option String) (body : String) : Bool :=
  match secret with
  | none => true
  | some sec =>
    match sigHeader with
    | none => false
    | some h =>
      match splitSig h with
      | none => false
      | some (alg, dig) =>
        match hmacFn alg sec body with
        | none => false
        | some d => d == dig

/-- Modelled from the spec: deliver parsed notifications through the
deduplication ledger: every entry whose id is not present is recorded and
emitted, entries already present are suppressed. -/
def deliver (led : Ledger) : List Notification → Ledger × List Event
  | [] => (led, [])
  | n :: ns =>
    if led.contains n.videoId then deliver led ns
    else
      ((deliver (led.record n.videoId) ns).1,
       Event.notified n :: (deliver (led.record n.videoId) ns).2)

/-- Modelled from the spec: the POST (notification delivery) half of the
callback handler, missing from src, parameterised by the HMAC primitive and
by the XML layer (parseRaw) that structures the raw body into raw entries.
Verification failure responds 403, parse failure 400, success 200 with the
deduplicated notified events. -/
def handlePost (hmacFn : String → String → String → Option String)
    (parseRaw : String → List RawEntry)
    (st : NotifierState) (sigHeader : Option String) (body : String) :
    NotifierState × HttpResponse × List Event :=
  if sigOk hmacFn st.secret sigHeader body then
    match parseFeed (parseRaw body) with
    | Except.error _ => (st, { status := 400, body := "" }, [])
    | Except.ok notes =>
      ({ st with received := (deliver st.received notes).1 },
       { status := 200, body := "" },
       (deliver st.received notes).2)
  else (st, { status := 403, body := "" }, [])

/-- An outbound hub request as the Subscription Manager builds it. -/
structure HubRequest where
  mode : String
  topic : String
  callback : String
  secret : Option String
deriving DecidableEq, Repr

/-- Modelled from the spec: building the outbound hub request for one
channel: topic derived from the channel id, callback is hubCallback plus
path, plus the optional secret. -/
def mkHubRequest (st : NotifierState) (mode : String) (ch : String) : HubRequest :=
  { mode := mode, topic := topicOfChannel ch,
    callback := st.hubCallback ++ st.path, secret := st.secret }

/-- The observable outcome of a subscribe/unsubscribe call: the new state,
the events emitted, and the outbound requests dispatched, in order. -/
structure SendOutcome where
  state : NotifierState
  events : List Event
  requests : List HubRequest
deriving DecidableEq, Repr

/-- The hub.mode value of subscribe requests. -/
def modeSubscribe : String := "subscribe"

/-- The hub.mode value of unsubscribe requests. -/
def modeUnsubscribe : String := "unsubscribe"

/-- Modelled from the spec: subscribing one channel, missing from src:
build the request, mark the record pending, dispatch through the transport
(an external collaborator); a send failure surfaces only as an error event,
never as a thrown error. -/
def subscribeOne (send : HubRequest → Except String Unit)
    (st : NotifierState) (ch : String) : SendOutcome :=
  match send (mkHubRequest st modeSubscribe ch) with
  | Except.ok _ =>
    { state := { st with subs := setSub st.subs ch SubState.pending },
      events := [], requests := [mkHubRequest st modeSubscribe ch] }
  | Except.error e =>
    { state := { st with subs := setSub st.subs ch SubState.pending },
      events := [Event.error e], requests := [mkHubRequest st modeSubscribe ch] }

/-- Modelled from the spec: unsubscribing one channel, missing from src:
same shape as subscribe with mode unsubscribe; the record transitions only
on later hub verification, so the table is untouched here. -/
def unsubscribeOne (send : HubRequest → Except String Unit)
    (st : NotifierState) (ch : String) : SendOutcome :=
  match send (mkHubRequest st modeUnsubscribe ch) with
  | Except.ok _ => { state := st, events := [], requests := [mkHubRequest st modeUnsubscribe ch] }
  | Except.error e =>
    { state := st, events := [Event.error e], requests := [mkHubRequest st modeUnsubscribe ch] }

/-- Subscribing a list of channels in order. -/
def subscribeMany (send : HubRequest → Except String Unit) :
    NotifierState → List String → SendOutcome
  | st, [] => { state := st, events := [], requests := [] }
  | st, c :: cs =>
    { state := (subscribeMany send (subscribeOne send st c).state cs).state,
      events := (subscribeOne send st c).events ++
        (subscribeMany send (subscribeOne send st c).state cs).events,
      requests := (subscribeOne send st c).requests ++
        (subscribeMany send (subscribeOne send st c).state cs).requests }

/-- Unsubscribing a list of channels in order. -/
def unsubscribeMany (send : HubRequest → Except String Unit) :
    NotifierState → List String → SendOutcome
  | st, [] => { state := st, events := [], requests := [] }
  | st, c :: cs =>
    { state := (unsubscribeMany send (unsubscribeOne send st c).state cs).state,
      events := (unsubscribeOne send st c).events ++
        (unsubscribeMany send (unsubscribeOne send st c).state cs).events,
      requests := (unsubscribeOne send st c).requests ++
        (unsubscribeMany send (unsubscribeOne send st c).state cs).requests }

/-- The string-or-array argument shape of subscribe/unsubscribe in
`index.d.ts`. -/
inductive ChannelsArg where
  | one (c : String)
  | many (cs : List String)
deriving DecidableEq, Repr

/-- Normalising the argument to the list of channel ids. -/
def argChannels : ChannelsArg → List String
  | ChannelsArg.one c => [c]
  | ChannelsArg.many cs => cs

/-- Modelled from the spec: the public subscribe operation, missing from
src: for each id it builds and dispatches a hub request; it returns no
value to the caller (only the state, events and requests are observable). -/
def Notifier.subscribe (send : HubRequest → Except String Unit)
    (st : NotifierState) (arg : ChannelsArg) : SendOutcome :=
  subscribeMany send st (argChannels arg)

/-- Modelled from the spec: the public unsubscribe operation, missing from
src. -/
def Notifier.unsubscribe (send : HubRequest → Except String Unit)
    (st : NotifierState) (arg : ChannelsArg) : SendOutcome :=
  unsubscribeMany send st (argChannels arg)

/-- A concrete HMAC primitive used to exercise the theorems: supports only
the sha1 algorithm name and tags the body with the secret. -/
def sampleHmac (alg sec body : String) : Option String :=
  if alg == "sha1" then some (sec ++ (":") ++ body) else none

/-- A concrete raw entry with video id V1. -/
def sampleEntry : RawEntry :=
  { id := some ("V1"), title := "t", link := "l", chanId := "c",
    chanName := "n", chanLink := "cl", published := 1, updated := 2 }

/-- A concrete raw entry lacking an id. -/
def badEntry : RawEntry :=
  { sampleEntry with id := none }

/-- The notification sampleEntry parses to. -/
def sampleNote : Notification :=
  { videoId := "V1", videoTitle := "t", videoLink := "l", channelId := "c",
    channelName := "n", channelLink := "cl", published := 1, updated := 2 }

/-- A concrete XML layer that structures every body as the single good
entry. -/
def sampleParse : String → List RawEntry := fun _ => [sampleEntry]

/-- A concrete XML layer that structures every body as the single bad
entry. -/
def badParse : String → List RawEntry := fun _ => [badEntry]

/-- Concrete notifier options. -/
def sampleOptions : NotifierOptions := { hubCallback := "https://example.org" }

/-- A concrete notifier state: configured secret, one pending subscription,
empty dedup ledger of capacity 2. -/
def sampleState : NotifierState :=
  { hubCallback := "https://example.org", hubUrl := defaultHubUrl,
    secret := some ("s3cr3t"), middleware := false, port := 3000, path := "/",
    server := none, subs := [("UC1", SubState.pending)],
    received := Ledger.empty 2 }

/-- The sample state without a configured secret. -/
def stNoSecret : NotifierState := { sampleState with secret := none }

/-- The sample state in middleware mode. -/
def sampleStateMw : NotifierState := { sampleState with middleware := true }

/-- A transport that always succeeds. -/
def sampleSendOk : HubRequest → Except String Unit := fun _ => Except.ok ()

/-- A transport that always fails. -/
def sampleSendFail : HubRequest → Except String Unit :=
  fun _ => Except.error ("boom")

/-! Helper lemmas about the deduplication ledger. -/

theorem Ledger.record_capacity (l : Ledger) (id : String) :
    (l.record id).capacity = l.capacity := by
  simp [Ledger.record]

theorem Ledger.append_single_length (xs : List String) (id : String) :
    (xs ++ [id]).length = xs.length + 1 := by
  simp

theorem Ledger.record_entries_of_le (l : Ledger) (id : String)
    (h : l.entries.length + 1 ≤ l.capacity) :
    (l.record id).entries = l.entries ++ [id] := by
  have hlen := Ledger.append_single_length l.entries id
  have hc : ¬ l.capacity < (l.entries ++ [id]).length := by omega
  simp only [Ledger.record, hc, if_false]

theorem Ledger.record_entries_of_full (l : Ledger) (id : String)
    (h : l.capacity < l.entries.length + 1) :
    (l.record id).entries = (l.entries ++ [id]).drop (l.entries.length + 1 - l.capacity) := by
  have hlen := Ledger.append_single_length l.entries id
  have hc : l.capacity < (l.entries ++ [id]).length := by omega
  simp only [Ledger.record, hlen]
  rw [if_pos h]

theorem Ledger.record_length_le (l : Ledger) (id : String)
    (h : l.entries.length ≤ l.capacity) :
    (l.record id).entries.length ≤ l.capacity := by
  have hlen := Ledger.append_single_length l.entries id
  by_cases hc : l.capacity < l.entries.length + 1
  · rw [Ledger.record_entries_of_full l id hc]
    simp only [List.length_drop]
    omega
  · rw [Ledger.record_entries_of_le l id (by omega)]
    omega

/-- The key shape lemma: starting from a ledger whose entries fit the
capacity, recording a list of ids leaves exactly the suffix of
(old entries ++ ids) that fits the capacity. -/
theorem Ledger.recordAll_entries (ids : List String) :
    ∀ (l : Ledger), l.entries.length ≤ l.capacity →
      (l.recordAll ids).entries =
        (l.entries ++ ids).drop (l.entries.length + ids.length - l.capacity) := by
  induction ids with
  | nil =>
    intro l h
    simp only [Ledger.recordAll, List.foldl_nil, List.append_nil, List.length_nil]
    have : l.entries.length + 0 - l.capacity = 0 := by omega
    rw [this, List.drop_zero]
  | cons a ids ih =>
    intro l h
    have hstep : Ledger.recordAll l (a :: ids) = Ledger.recordAll (l.record a) ids := by
      simp [Ledger.recordAll]
    rw [hstep]
    have hlen : (l.record a).entries.length ≤ (l.record a).capacity := by
      rw [Ledger.record_capacity]
      exact Ledger.record_length_le l a h
    rw [ih (l.record a) hlen]
    rw [Ledger.record_capacity]
    by_cases hc : l.capacity < l.entries.length + 1
    · -- the ledger was exactly full: recording a evicts the head
      have hcap : l.capacity = l.entries.length := by omega
      rw [Ledger.record_entries_of_full l a hc]
      have h1 : l.entries.length + 1 - l.capacity = 1 := by omega
      rw [h1]
      have hlen2 : ((l.entries ++ [a]).drop 1).length = l.entries.length := by
        simp only [List.length_drop, List.length_append, List.length_cons, List.length_nil]
        omega
      rw [hlen2]
      have hsplit : ((l.entries ++ [a]) ++ ids).drop 1 = (l.entries ++ [a]).drop 1 ++ ids :=
        List.drop_append_of_le_length (by simp)
      rw [← hsplit, List.drop_drop]
      have hassoc : l.entries ++ [a] ++ ids = l.entries ++ a :: ids := by
        simp
      rw [hassoc]
      congr 1
      simp only [List.length_cons]
      omega
    · -- still room: recording a just appends
      have hrec : (l.record a).entries = l.entries ++ [a] :=
        Ledger.record_entries_of_le l a (by omega)
      rw [hrec]
      have hlen2 : (l.entries ++ [a]).length = l.entries.length + 1 := by
        simp
      rw [hlen2]
      have hassoc : l.entries ++ [a] ++ ids = l.entries ++ a :: ids := by
        simp
      rw [hassoc]
      congr 1
      simp only [List.length_cons]
      omega

theorem Ledger.recordAll_from_empty (cap : Nat) (ids : List String) :
    ((Ledger.empty cap).recordAll ids).entries = ids.drop (ids.length - cap) := by
  have h := Ledger.recordAll_entries ids (Ledger.empty cap) (by simp [Ledger.empty])
  simpa [Ledger.empty] using h

/-- Claim C4: for a Deduplication Ledger with capacity N, after recording
N+1 distinct ids, contains on the first-recorded (oldest) id returns false
and contains on each of the N most recently recorded ids returns true:
record evicts strictly in insertion (FIFO) order. -/
theorem C4_dedup_fifo_eviction (N : Nat) (ids : List String)
    (hlen : ids.length = N + 1) (hnd : ids.Nodup) :
    ((Ledger.empty N).recordAll ids).contains (ids.get ⟨0, by omega⟩) = false ∧
    (∀ i (h : i < ids.length), 1 ≤ i →
      ((Ledger.empty N).recordAll ids).contains (ids.get ⟨i, h⟩) = true) := by
  cases ids with
  | nil =>
    rw [List.length_nil] at hlen
    exact absurd hlen.symm (Nat.succ_ne_zero N)
  | cons a t =>
    have hlen' : t.length = N := by
      rw [List.length_cons] at hlen
      omega
    have hent := Ledger.recordAll_from_empty N (a :: t)
    have hdrop : (a :: t).length - N = 1 := by
      rw [List.length_cons]
      omega
    rw [hdrop] at hent
    have hT : ((Ledger.empty N).recordAll (a :: t)).entries = t := by
      simpa using hent
    have hnotmem : a ∉ t := (List.nodup_cons.mp hnd).1
    constructor
    · show Ledger.contains _ a = false
      rw [Ledger.contains, hT]
      simp only [List.contains, List.elem_eq_mem, decide_eq_false_iff_not]
      exact hnotmem
    · intro i h hi
      match i, hi with
      | Nat.succ j, _ =>
        have hj : j < t.length := by
          rw [List.length_cons] at h
          omega
        show Ledger.contains _ (t.get ⟨j, hj⟩) = true
        rw [Ledger.contains, hT]
        simp only [List.contains, List.elem_eq_mem, decide_eq_true_eq]
        exact List.get_mem t j hj

/-- Witness for C4 at capacity 2 and ids a, b, c. -/
theorem C4_dedup_fifo_eviction_witness :
    ((Ledger.empty 2).recordAll ["a", "b", "c"]).contains ("a") = false ∧
    ((Ledger.empty 2).recordAll ["a", "b", "c"]).contains ("b") = true ∧
    ((Ledger.empty 2).recordAll ["a", "b", "c"]).contains ("c") = true := by
  have h := C4_dedup_fifo_eviction 2 ["a", "b", "c"] (by decide) (by decide)
  exact ⟨h.1, h.2 1 (by decide) (by decide), h.2 2 (by decide) (by decide)⟩

theorem Ledger.contains_record_self (l : Ledger) (v : String)
    (hcap : 1 ≤ l.capacity) : (l.record v).contains v = true := by
  by_cases hc : l.capacity < l.entries.length + 1
  · rw [Ledger.contains, Ledger.record_entries_of_full l v hc]
    have hk : l.entries.length + 1 - l.capacity ≤ l.entries.length := by omega
    rw [List.drop_append_of_le_length hk]
    simp [List.contains]
  · rw [Ledger.contains, Ledger.record_entries_of_le l v (by omega)]
    simp [List.contains]

theorem handlePost_of_sig_false (hmacFn : String → String → String → Option String)
    (parseRaw : String → List RawEntry) (st : NotifierState)
    (sigHeader : Option String) (body : String)
    (h : sigOk hmacFn st.secret sigHeader body = false) :
    handlePost hmacFn parseRaw st sigHeader body =
      (st, { status := 403, body := "" }, []) := by
  simp [handlePost, h]

/-- Claim C2: a POST delivery with a configured secret whose signature
header is missing, names an unsupported algorithm, or whose hex digest does
not equal the recomputed HMAC of the raw body, is answered 403 and zero
events are emitted. -/
theorem C2_post_invalid_signature_403
    (hmacFn : String → String → String → Option String)
    (parseRaw : String → List RawEntry) (st : NotifierState)
    (sigHeader : Option String) (body : String) (sec : String)
    (hsec : st.secret = some sec) :
    (sigHeader = none →
      handlePost hmacFn parseRaw st sigHeader body =
        (st, { status := 403, body := "" }, [])) ∧
    (∀ hv alg dig, sigHeader = some hv → splitSig hv = some (alg, dig) →
      hmacFn alg sec body = none →
      handlePost hmacFn parseRaw st sigHeader body =
        (st, { status := 403, body := "" }, [])) ∧
    (∀ hv alg dig d, sigHeader = some hv → splitSig hv = some (alg, dig) →
      hmacFn alg sec body = some d → d ≠ dig →
      handlePost hmacFn parseRaw st sigHeader body =
        (st, { status := 403, body := "" }, [])) := by
  refine ⟨?_, ?_, ?_⟩
  · intro hnone
    subst hnone
    exact handlePost_of_sig_false hmacFn parseRaw st none body
      (by simp [sigOk, hsec])
  · intro hv alg dig hh hsplit hm
    subst hh
    exact handlePost_of_sig_false hmacFn parseRaw st (some hv) body
      (by simp [sigOk, hsec, hsplit, hm])
  · intro hv alg dig d hh hsplit hm hne
    subst hh
    exact handlePost_of_sig_false hmacFn parseRaw st (some hv) body
      (by simp [sigOk, hsec, hsplit, hm, hne])

/-- Witness for C2: the sample state rejects a delivery with no signature
header. -/
theorem C2_post_invalid_signature_403_witness :
    handlePost sampleHmac sampleParse sampleState none ("b") =
      (sampleState, { status := 403, body := "" }, []) :=
  (C2_post_invalid_signature_403 sampleHmac sampleParse sampleState none ("b")
    ("s3cr3t") rfl).1 rfl

/-- Claim C7: when at least one entry parses the Feed Parser returns
exactly the entries that parse, in document order, skipping entries that
lack an id; it reports the single unparseable-feed error only when no entry
parses, and in that case the POST handler responds 400 and emits no
event. -/
theorem C7_feed_parser_policy (raws : List RawEntry) :
    (raws.filterMap entryToNote ≠ [] →
      parseFeed raws = Except.ok (raws.filterMap entryToNote)) ∧
    (raws.filterMap entryToNote = [] →
      parseFeed raws = Except.error unparseableMsg) ∧
    (∀ (hmacFn : String → String → String → Option String)
       (parseRaw : String → List RawEntry) (st : NotifierState)
       (sigHeader : Option String) (body : String),
      parseRaw body = raws →
      sigOk hmacFn st.secret sigHeader body = true →
      raws.filterMap entryToNote = [] →
      handlePost hmacFn parseRaw st sigHeader body =
        (st, { status := 400, body := "" }, [])) := by
  refine ⟨?_, ?_, ?_⟩
  · intro hne
    unfold parseFeed
    cases hfm : raws.filterMap entryToNote with
    | nil => exact absurd hfm hne
    | cons n ns => rfl
  · intro he
    unfold parseFeed
    rw [he]
  · intro hmacFn parseRaw st sigHeader body hpr hsig he
    have hpf : parseFeed (parseRaw body) = Except.error unparseableMsg := by
      rw [hpr]
      unfold parseFeed
      rw [he]
    simp [handlePost, hsig, hpf]

/-- Witness for C7: a good entry parses, the id-less entry makes the feed
unparseable, and the POST handler answers such a feed with 400. -/
theorem C7_feed_parser_policy_witness :
    parseFeed [sampleEntry] = Except.ok [sampleNote] ∧
    parseFeed [badEntry] = Except.error unparseableMsg ∧
    handlePost sampleHmac badParse stNoSecret none ("x") =
      (stNoSecret, { status := 400, body := "" }, []) :=
  ⟨(C7_feed_parser_policy [sampleEntry]).1 (by decide),
   (C7_feed_parser_policy [badEntry]).2.1 (by decide),
   (C7_feed_parser_policy [badEntry]).2.2 sampleHmac badParse stNoSecret none
     ("x") rfl rfl (by decide)⟩

/-- Claim C3: a POST delivery with a configured secret and a valid
signature over a feed with one new entry with id v emits exactly one
notified event carrying that video id; a byte-identical redelivery while
v remains in the ledger emits zero notified events and is still answered
200. -/
theorem C3_post_dedup_idempotent
    (hmacFn : String → String → String → Option String)
    (parseRaw : String → List RawEntry) (st : NotifierState)
    (hv alg dig body : String) (r : RawEntry) (v sec : String)
    (hsec : st.secret = some sec)
    (hsplit : splitSig hv = some (alg, dig))
    (hhmac : hmacFn alg sec body = some dig)
    (hpr : parseRaw body = [r])
    (hid : r.id = some v)
    (hnew : st.received.contains v = false)
    (hcap : 1 ≤ st.received.capacity) :
    handlePost hmacFn parseRaw st (some hv) body =
      ({ st with received := st.received.record v },
       { status := 200, body := "" },
       [Event.notified
         { videoId := v, videoTitle := r.title, videoLink := r.link,
           channelId := r.chanId, channelName := r.chanName,
           channelLink := r.chanLink, published := r.published,
           updated := r.updated }]) ∧
    handlePost hmacFn parseRaw ({ st with received := st.received.record v })
        (some hv) body =
      ({ st with received := st.received.record v },
       { status := 200, body := "" }, []) := by
  have hnote : entryToNote r =
      some { videoId := v, videoTitle := r.title, videoLink := r.link,
             channelId := r.chanId, channelName := r.chanName,
             channelLink := r.chanLink, published := r.published,
             updated := r.updated } := by
    simp [entryToNote, hid]
  have hpf : parseFeed (parseRaw body) =
      Except.ok [{ videoId := v, videoTitle := r.title, videoLink := r.link,
                   channelId := r.chanId, channelName := r.chanName,
                   channelLink := r.chanLink, published := r.published,
                   updated := r.updated }] := by
    rw [hpr]
    unfold parseFeed
    simp [hnote]
  have hcont : (st.received.record v).contains v = true :=
    Ledger.contains_record_self st.received v hcap
  constructor
  · simp [handlePost, sigOk, hsec, hsplit, hhmac, hpf, deliver, hnew]
  · simp [handlePost, sigOk, hsec, hsplit, hhmac, hpf, deliver, hcont]

/-- Witness for C3: the sample state accepts one delivery of V1 and
suppresses its redelivery. -/
theorem C3_post_dedup_idempotent_witness :
    handlePost sampleHmac sampleParse sampleState (some ("sha1=s3cr3t:b")) ("b") =
      ({ sampleState with received := sampleState.received.record ("V1") },
       { status := 200, body := "" },
       [Event.notified
         { videoId := "V1", videoTitle := sampleEntry.title,
           videoLink := sampleEntry.link, channelId := sampleEntry.chanId,
           channelName := sampleEntry.chanName,
           channelLink := sampleEntry.chanLink,
           published := sampleEntry.published,
           updated := sampleEntry.updated }]) ∧
    handlePost sampleHmac sampleParse
        ({ sampleState with received := sampleState.received.record ("V1") })
        (some ("sha1=s3cr3t:b")) ("b") =
      ({ sampleState with received := sampleState.received.record ("V1") },
       { status := 200, body := "" }, []) :=
  C3_post_dedup_idempotent sampleHmac sampleParse sampleState ("sha1=s3cr3t:b")
    ("sha1") ("s3cr3t:b") ("b") sampleEntry ("V1") ("s3cr3t") rfl (by decide)
    (by decide) rfl rfl (by decide) (by decide)

/-- Claim C6: a GET request lacking any required query parameter (hub.mode,
hub.topic or hub.challenge) gets status 400 with an empty body and no event
is emitted. -/
theorem C6_get_missing_param_400 (st : NotifierState)
    (mode topic challenge lease : Option String)
    (h : mode = none ∨ topic = none ∨ challenge = none) :
    handleGet st mode topic challenge lease =
      (st, { status := 400, body := "" }, []) := by
  cases mode <;> cases topic <;> cases challenge <;>
    first
    | rfl
    | (rcases h with h | h | h <;> exact absurd h (Option.some_ne_none _))

/-- Witness for C6: the sample state with hub.mode missing. -/
theorem C6_get_missing_param_400_witness :
    handleGet sampleState none (some ("x")) (some ("y")) none =
      (sampleState, { status := 400, body := "" }, []) :=
  C6_get_missing_param_400 sampleState none (some ("x")) (some ("y")) none
    (Or.inl rfl)

/-- Claim C5: a GET request whose topic names a channel with no
subscription record or whose record is not in the state the mode requires
(pending for subscribe, active for unsubscribe) gets status 404 and no
subscribe or unsubscribe event fires. -/
theorem C5_get_mismatch_404 (st : NotifierState) (t ch c : String)
    (lease : Option String) (hch : channelOfTopic t = some ch) :
    (lookupSub st.subs ch ≠ some SubState.pending →
      handleGet st (some modeSubscribe) (some t) (some c) lease =
        (st, { status := 404, body := "" }, [])) ∧
    (lookupSub st.subs ch ≠ some SubState.active →
      handleGet st (some modeUnsubscribe) (some t) (some c) lease =
        (st, { status := 404, body := "" }, [])) := by
  constructor
  · intro hns
    have hb : (lookupSub st.subs ch == some SubState.pending) = false := by
      simpa using hns
    simp [handleGet, hch, hb, modeSubscribe]
  · intro hna
    have hb : (lookupSub st.subs ch == some SubState.active) = false := by
      simpa using hna
    simp [handleGet, hch, hb, modeUnsubscribe, modeSubscribe]

/-- Witness for C5: unknown channel on the sample state. -/
theorem C5_get_mismatch_404_witness :
    handleGet sampleState (some modeSubscribe)
        (some (topicOfChannel ("UC9"))) (some ("tok")) none =
      (sampleState, { status := 404, body := "" }, []) :=
  (C5_get_mismatch_404 sampleState (topicOfChannel ("UC9")) ("UC9") ("tok")
    none (by decide)).1 (by decide)

/-- Claim C1: a GET verification request whose topic matches a pending
subscription and whose mode is subscribe gets status 200 with body equal to
the request's hub.challenge byte for byte, and exactly one subscribe event
fires whose leaseSeconds equals the parsed hub.lease_seconds. -/
theorem C1_get_verify_success (st : NotifierState) (t ch c : String)
    (lease : Option String) (hch : channelOfTopic t = some ch)
    (hsub : lookupSub st.subs ch = some SubState.pending) :
    handleGet st (some modeSubscribe) (some t) (some c) lease =
      ({ st with subs := setSub st.subs ch SubState.active },
       { status := 200, body := c },
       [Event.subscription
         { type := SubType.subscribe, channel := ch,
           leaseSeconds := parseLease lease }]) := by
  simp [handleGet, hch, hsub, modeSubscribe]

/-- Witness for C1: the sample state's pending channel UC1 confirmed with
challenge tok and a 300 second lease. -/
theorem C1_get_verify_success_witness :
    handleGet sampleState (some modeSubscribe)
        (some (topicOfChannel ("UC1"))) (some ("tok")) (some ("300")) =
      ({ sampleState with subs := setSub sampleState.subs ("UC1") SubState.active },
       { status := 200, body := "tok" },
       [Event.subscription
         { type := SubType.subscribe, channel := "UC1",
           leaseSeconds := parseLease (some ("300")) }]) :=
  C1_get_verify_success sampleState (topicOfChannel ("UC1")) ("UC1") ("tok")
    (some ("300")) (by decide) (by decide)

theorem subscribeOne_state (send : HubRequest → Except String Unit)
    (st : NotifierState) (ch : String) :
    (subscribeOne send st ch).state =
      { st with subs := setSub st.subs ch SubState.pending } := by
  unfold subscribeOne
  cases send (mkHubRequest st modeSubscribe ch) <;> rfl

theorem unsubscribeOne_state (send : HubRequest → Except String Unit)
    (st : NotifierState) (ch : String) :
    (unsubscribeOne send st ch).state = st := by
  unfold unsubscribeOne
  cases send (mkHubRequest st modeUnsubscribe ch) <;> rfl

theorem subscribeOne_requests (send : HubRequest → Except String Unit)
    (st : NotifierState) (ch : String) :
    (subscribeOne send st ch).requests = [mkHubRequest st modeSubscribe ch] := by
  unfold subscribeOne
  cases send (mkHubRequest st modeSubscribe ch) <;> rfl

theorem unsubscribeOne_requests (send : HubRequest → Except String Unit)
    (st : NotifierState) (ch : String) :
    (unsubscribeOne send st ch).requests = [mkHubRequest st modeUnsubscribe ch] := by
  unfold unsubscribeOne
  cases send (mkHubRequest st modeUnsubscribe ch) <;> rfl

theorem subscribeMany_requests (send : HubRequest → Except String Unit)
    (cs : List String) : ∀ (st : NotifierState),
    (subscribeMany send st cs).requests =
      cs.map (fun ch => mkHubRequest st modeSubscribe ch) := by
  induction cs with
  | nil => intro st; rfl
  | cons c cs ih =>
    intro st
    simp only [subscribeMany]
    rw [ih ((subscribeOne send st c).state), subscribeOne_state,
      subscribeOne_requests]
    rfl

theorem unsubscribeMany_requests (send : HubRequest → Except String Unit)
    (cs : List String) : ∀ (st : NotifierState),
    (unsubscribeMany send st cs).requests =
      cs.map (fun ch => mkHubRequest st modeUnsubscribe ch) := by
  induction cs with
  | nil => intro st; rfl
  | cons c cs ih =>
    intro st
    simp only [unsubscribeMany]
    rw [ih ((unsubscribeOne send st c).state), unsubscribeOne_state,
      unsubscribeOne_requests]
    rfl

theorem subscribeMany_state_server (send : HubRequest → Except String Unit)
    (cs : List String) : ∀ (st : NotifierState),
    (subscribeMany send st cs).state.server = st.server := by
  induction cs with
  | nil => intro st; rfl
  | cons c cs ih =>
    intro st
    simp only [subscribeMany]
    rw [ih ((subscribeOne send st c).state), subscribeOne_state]

theorem unsubscribeMany_state (send : HubRequest → Except String Unit)
    (cs : List String) : ∀ (st : NotifierState),
    (unsubscribeMany send st cs).state = st := by
  induction cs with
  | nil => intro st; rfl
  | cons c cs ih =>
    intro st
    simp only [unsubscribeMany]
    rw [ih ((unsubscribeOne send st c).state), unsubscribeOne_state]

/-- Claim C8: subscribe and unsubscribe never raise on outbound transport
failure: in this model they are total functions into an outcome (no Except
in the return type), the request is still dispatched, and the send failure
surfaces only as an error event. -/
theorem C8_transport_failure_only_event
    (send : HubRequest → Except String Unit) (st : NotifierState)
    (ch e : String) :
    (send (mkHubRequest st modeSubscribe ch) = Except.error e →
      Notifier.subscribe send st (ChannelsArg.one ch) =
        { state := { st with subs := setSub st.subs ch SubState.pending },
          events := [Event.error e],
          requests := [mkHubRequest st modeSubscribe ch] }) ∧
    (send (mkHubRequest st modeUnsubscribe ch) = Except.error e →
      Notifier.unsubscribe send st (ChannelsArg.one ch) =
        { state := st, events := [Event.error e],
          requests := [mkHubRequest st modeUnsubscribe ch] }) := by
  constructor
  · intro hfail
    simp [Notifier.subscribe, argChannels, subscribeMany, subscribeOne, hfail]
  · intro hfail
    simp [Notifier.unsubscribe, argChannels, unsubscribeMany, unsubscribeOne,
      hfail]

/-- Witness for C8: a transport that always fails produces exactly one
error event from subscribe. -/
theorem C8_transport_failure_only_event_witness :
    Notifier.subscribe sampleSendFail sampleState (ChannelsArg.one ("UC2")) =
      { state :=
          { sampleState with subs := setSub sampleState.subs ("UC2") SubState.pending },
        events := [Event.error ("boom")],
        requests := [mkHubRequest sampleState modeSubscribe ("UC2")] } :=
  (C8_transport_failure_only_event sampleSendFail sampleState ("UC2") ("boom")).1
    rfl

/-- Claim C9: subscribe on a single string equals subscribe on the
one-element array, one hub request is issued per element in array order,
and the same holds for unsubscribe; the call's only outputs are the state,
events and requests of the outcome (no return value). -/
theorem C9_argument_shapes (send : HubRequest → Except String Unit)
    (st : NotifierState) (c : String) (cs : List String) :
    Notifier.subscribe send st (ChannelsArg.one c) =
      Notifier.subscribe send st (ChannelsArg.many [c]) ∧
    Notifier.unsubscribe send st (ChannelsArg.one c) =
      Notifier.unsubscribe send st (ChannelsArg.many [c]) ∧
    (Notifier.subscribe send st (ChannelsArg.many cs)).requests =
      cs.map (fun ch => mkHubRequest st modeSubscribe ch) ∧
    (Notifier.unsubscribe send st (ChannelsArg.many cs)).requests =
      cs.map (fun ch => mkHubRequest st modeUnsubscribe ch) :=
  ⟨rfl, rfl, subscribeMany_requests send cs st, unsubscribeMany_requests send cs st⟩

/-- Claim C10: the server field is null unless setup succeeds: the
constructor initialises it to none, listener returns the state unchanged,
subscribe and unsubscribe preserve it, and a successful setup (standalone
mode only) assigns the owned listener on the configured port and path. -/
theorem C10_server_null_until_setup (o : NotifierOptions)
    (st st' : NotifierState) (send : HubRequest → Except String Unit)
    (arg : ChannelsArg) :
    (Notifier.create o).server = none ∧
    (Notifier.listener st = Except.ok st' → st' = st) ∧
    (Notifier.subscribe send st arg).state.server = st.server ∧
    (Notifier.unsubscribe send st arg).state.server = st.server ∧
    (st.middleware = false →
      Notifier.setup st =
        Except.ok { st with server := some (st.port, st.path) }) ∧
    (Notifier.setup st = Except.ok st' →
      st.middleware = false ∧ st'.server = some (st.port, st.path)) := by
  refine ⟨rfl, ?_, ?_, ?_, ?_, ?_⟩
  · intro h
    unfold Notifier.listener at h
    by_cases hmw : st.middleware
    · rw [if_pos hmw] at h
      exact (Except.ok.inj h).symm
    · rw [if_neg hmw] at h
      exact Except.noConfusion h
  · exact subscribeMany_state_server send (argChannels arg) st
  · rw [show (Notifier.unsubscribe send st arg).state = st from
      unsubscribeMany_state send (argChannels arg) st]
  · intro hmw
    simp [Notifier.setup, hmw]
  · intro h
    unfold Notifier.setup at h
    by_cases hmw : st.middleware
    · rw [if_pos hmw] at h
      exact Except.noConfusion h
    · rw [if_neg hmw] at h
      have hst : { st with server := some (st.port, st.path) } = st' :=
        Except.ok.inj h
      refine ⟨by simpa using hmw, ?_⟩
      rw [← hst]

/-- Witness for C10: the sample options and state exercised through
create, subscribe and a successful setup. -/
theorem C10_server_null_until_setup_witness :
    (Notifier.create sampleOptions).server = none ∧
    (Notifier.subscribe sampleSendOk sampleState
      (ChannelsArg.one ("UC1"))).state.server = sampleState.server ∧
    Notifier.setup sampleState =
      Except.ok { sampleState with server := some (sampleState.port, sampleState.path) } ∧
    ({ sampleState with
        server := some (sampleState.port, sampleState.path) } : NotifierState).server =
      some (sampleState.port, sampleState.path) :=
  have h := C10_server_null_until_setup sampleOptions sampleState
    ({ sampleState with server := some (sampleState.port, sampleState.path) })
    sampleSendOk (ChannelsArg.one ("UC1"))
  ⟨h.1, h.2.2.1, h.2.2.2.2.1 rfl, (h.2.2.2.2.2 (h.2.2.2.2.1 rfl)).2⟩

end YTNotif
